import Mathlib

/-!
# Client view of the text-analysis page (`src/src/App.js`)

The component `App` keeps five pieces of React state (`text`, `toxicityResult`,
`eduScoreResult`, `logs`, `error`), has three asynchronous handlers
(`handleAnalyzeText`, `fetchLogs`, `handleClearLogs`) and derives a chart
description (`chartData`) and the rows of a table from `logs`.

Embedding.
* A handler is a function from the outcomes of the network calls it may issue to
  the ordered list of effects it performs: every `axios` call, every state setter
  call and every `console.error` call is one `Event`, in program order.  A call
  the handler does not reach leaves no `Event.request` in the list.
* The view after a handler has run is the prior view with the setter events
  applied in order (`run`).
* A handler is asynchronous: it gives up control at every `await`, and the code
  between two `await`s runs without interruption.  `Sys`, `Step` and `step`
  describe the page with several invocations in flight, each cut into its
  segments; any invocation may be started or resumed at each step.
* JSON numbers are rationals (no NaN, no signed zero, no rounding).
-/

namespace App

/-! ## Values -/

/-- JSON values, as carried by `response.data`. `null` is JavaScript's `null`. -/
inductive JVal where
  | null
  | bool (b : Bool)
  | num (q : ℚ)
  | str (s : String)
  | arr (items : List JVal)
  | obj (fields : List (String × JVal))

/-- The test `v !== null`. -/
def JVal.isPresent : JVal → Bool
  | .null => false
  | _ => true

/-- Modelled from the spec: the shape of one element of the body of `GET /logs`
(`{ id: integer, text: string, result_type: string, score: number | null }`);
JavaScript has no type declaration for it. `score = none` is `null`. -/
structure LogEntry where
  id : Int
  text : String
  result_type : String
  score : Option ℚ
  deriving DecidableEq

/-- The value caught by a `catch (err)` clause around an `axios` call. -/
structure AxiosError where
  message : String
  deriving DecidableEq

/-- The four calls made through `axios`. -/
inductive Request where
  | postToxicity (text : String)
  | postEduScore (text : String)
  | getLogs
  | deleteClearLogs
  deriving DecidableEq

/-- React state of `App` (lines 19-23). `error = none` is `null`. -/
structure View where
  text : String
  toxicityResult : JVal
  eduScoreResult : JVal
  logs : List LogEntry
  error : Option String

/-- Initial values given to `useState`. -/
def View.initial : View :=
  { text := "", toxicityResult := JVal.null, eduScoreResult := JVal.null, logs := [], error := none }

/-- One observable effect of a handler. -/
inductive Event where
  | request (r : Request)
  | setText (s : String)
  | setToxicityResult (v : JVal)
  | setEduScoreResult (v : JVal)
  | setLogs (ls : List LogEntry)
  | setError (e : Option String)
  | consoleError (label : Option String) (err : AxiosError)

/-- Effect of one event on the React state; requests and console output leave it alone. -/
def applyEvent (v : View) : Event → View
  | .request _ => v
  | .setText s => { v with text := s }
  | .setToxicityResult x => { v with toxicityResult := x }
  | .setEduScoreResult x => { v with eduScoreResult := x }
  | .setLogs ls => { v with logs := ls }
  | .setError e => { v with error := e }
  | .consoleError _ _ => v

/-- The view after a list of events, applied in order. -/
def run (v : View) (es : List Event) : View :=
  es.foldl applyEvent v

/-- The network calls recorded in a list of events, in order. -/
def requests : List Event → List Request
  | [] => []
  | .request r :: es => r :: requests es
  | _ :: es => requests es

/-! ## Handlers -/

/-- The message of line 40. -/
def analyzeErrorMessage : String := "An error occurred while processing the text."

/-- Effects of `fetchLogs` (lines 45-52), given the outcome of `GET /logs`. -/
def fetchLogs (logsResponse : Except AxiosError (List LogEntry)) : List Event :=
  Event.request Request.getLogs ::
    match logsResponse with
    | .ok data => [Event.setLogs data]
    | .error err => [Event.consoleError (some "Failed to fetch logs:") err]

/-- Outcomes of the calls `handleAnalyzeText` may issue; an outcome is consulted
only if the call is reached. -/
structure AnalyzeNet where
  toxicity : Except AxiosError JVal
  eduScore : Except AxiosError JVal
  logs : Except AxiosError (List LogEntry)

/-- Effects of `handleAnalyzeText` (lines 25-43); `text` is the state variable
captured by the handler. -/
def handleAnalyzeText (text : String) (net : AnalyzeNet) : List Event :=
  [Event.setError none, Event.setToxicityResult JVal.null, Event.setEduScoreResult JVal.null,
    Event.request (Request.postToxicity text)] ++
    match net.toxicity with
    | .error err => [Event.setError (some analyzeErrorMessage), Event.consoleError none err]
    | .ok toxicityData =>
      [Event.setToxicityResult toxicityData, Event.request (Request.postEduScore text)] ++
        match net.eduScore with
        | .error err => [Event.setError (some analyzeErrorMessage), Event.consoleError none err]
        | .ok eduScoreData => Event.setEduScoreResult eduScoreData :: fetchLogs net.logs

/-- Effects of `handleClearLogs` (lines 54-61), given the outcome of `DELETE /clear-logs`. -/
def handleClearLogs (clearResponse : Except AxiosError Unit) : List Event :=
  Event.request Request.deleteClearLogs ::
    match clearResponse with
    | .ok _ => [Event.setLogs []]
    | .error err => [Event.consoleError (some "Failed to clear logs:") err]

/-- Effects of the `onChange` handler of the text area (line 117). -/
def handleChange (value : String) : List Event :=
  [Event.setText value]

/-! ## Derived views -/

/-- The expression `log.score || 0`: `null` and `0` are falsy. -/
def scoreOrZero : Option ℚ → ℚ
  | none => 0
  | some q => if q = 0 then 0 else q

/-- One element of `chartData.datasets`. -/
structure Dataset where
  label : String
  data : List ℚ
  borderColor : String
  backgroundColor : String
  fill : Bool

/-- The object `chartData`. -/
structure ChartData where
  labels : List String
  datasets : List Dataset

/-- The object built at lines 69-91 from the current `logs`. -/
def chartData (logs : List LogEntry) : ChartData :=
  { labels := logs.map (fun log => "Log " ++ toString log.id)
    datasets :=
      [ { label := "Toxicity Score"
          data := (logs.filter (fun log => log.result_type = "Toxicity")).map
            (fun log => scoreOrZero log.score)
          borderColor := "rgba(255, 99, 132, 1)"
          backgroundColor := "rgba(255, 99, 132, 0.2)"
          fill := true },
        { label := "Education Score"
          data := (logs.filter (fun log => log.result_type = "Education")).map
            (fun log => scoreOrZero log.score)
          borderColor := "rgba(54, 162, 235, 1)"
          backgroundColor := "rgba(54, 162, 235, 0.2)"
          fill := true } ] }

/-- The data of the dataset carrying the given label, if there is one. -/
def ChartData.series (cd : ChartData) (label : String) : Option (List ℚ) :=
  (cd.datasets.find? (fun d => d.label = label)).map (fun d => d.data)

/-- Content of a table cell: a number or a string. -/
inductive Cell where
  | num (q : ℚ)
  | str (s : String)
  deriving DecidableEq

/-- One `<tr>` of the log table (lines 272-277). -/
structure Row where
  key : Int
  id : Int
  text : String
  result_type : String
  score : Cell
  deriving DecidableEq

/-- The expression `log.score !== null ? log.score : "N/A"` of line 276. -/
def scoreCell : Option ℚ → Cell
  | some q => Cell.num q
  | none => Cell.str "N/A"

/-- The rows produced by `logs.map(...)` at lines 271-278. -/
def tableRows (logs : List LogEntry) : List Row :=
  logs.map (fun log =>
    { key := log.id, id := log.id, text := log.text, result_type := log.result_type,
      score := scoreCell log.score })

/-! ## Specification-side definitions -/

/-- The series as the specification words it: keep, in order, the entries of the
given type and take each score, with 0 for a null score. -/
def specSeries (resultType : String) (logs : List LogEntry) : List ℚ :=
  (logs.filter (fun log => log.result_type = resultType)).map (fun log => log.score.getD 0)

/-- The three entries of the specification's example. -/
def exampleLogs : List LogEntry :=
  [ { id := 1, text := "", result_type := "Toxicity", score := some (4 / 5) },
    { id := 2, text := "", result_type := "Education", score := some 5 },
    { id := 3, text := "", result_type := "Toxicity", score := none } ]

/-! ## Invocations in flight -/

/-- One user- or flow-triggered operation on the view, with the outcomes of its calls. -/
inductive Action where
  | edit (value : String)
  | analyze (net : AnalyzeNet)
  | refreshLogs (logsResponse : Except AxiosError (List LogEntry))
  | clearLogs (clearResponse : Except AxiosError Unit)

/-- The code of `fetchLogs` after its `await` (lines 48-51). -/
def fetchLogsResume (logsResponse : Except AxiosError (List LogEntry)) : List Event :=
  match logsResponse with
  | .ok data => [Event.setLogs data]
  | .error err => [Event.consoleError (some "Failed to fetch logs:") err]

/-- The effects of `fetchLogs`, cut at its `await` (line 47). -/
def fetchLogsSegments (logsResponse : Except AxiosError (List LogEntry)) : List (List Event) :=
  [[Event.request Request.getLogs], fetchLogsResume logsResponse]

/-- The effects of `handleClearLogs`, cut at its `await` (line 56). -/
def handleClearLogsSegments (clearResponse : Except AxiosError Unit) : List (List Event) :=
  [[Event.request Request.deleteClearLogs],
    match clearResponse with
    | .ok _ => [Event.setLogs []]
    | .error err => [Event.consoleError (some "Failed to clear logs:") err]]

/-- The effects of `handleAnalyzeText`, cut at its `await`s (lines 31 and 34) and
at the `await` of the `fetchLogs` it starts (line 47). -/
def handleAnalyzeTextSegments (text : String) (net : AnalyzeNet) : List (List Event) :=
  [Event.setError none, Event.setToxicityResult JVal.null, Event.setEduScoreResult JVal.null,
    Event.request (Request.postToxicity text)] ::
    match net.toxicity with
    | .error err => [[Event.setError (some analyzeErrorMessage), Event.consoleError none err]]
    | .ok toxicityData =>
      [Event.setToxicityResult toxicityData, Event.request (Request.postEduScore text)] ::
        match net.eduScore with
        | .error err => [[Event.setError (some analyzeErrorMessage), Event.consoleError none err]]
        | .ok eduScoreData =>
          [[Event.setEduScoreResult eduScoreData, Event.request Request.getLogs],
            fetchLogsResume net.logs]

/-- The segments of an action started while the state variable `text` has the given value. -/
def Action.segments (text : String) : Action → List (List Event)
  | .edit value => [handleChange value]
  | .analyze net => handleAnalyzeTextSegments text net
  | .refreshLogs logsResponse => fetchLogsSegments logsResponse
  | .clearLogs clearResponse => handleClearLogsSegments clearResponse

/-- The page: the React state and, for every invocation started so far (in order
of starting), the segments it has still to run. -/
structure Sys where
  view : View
  pending : List (List (List Event))

/-- The page on load, before any handler has been started. -/
def Sys.initial : Sys :=
  { view := View.initial, pending := [] }

/-- One scheduling step: an action is started (its first segment runs at once), or
the invocation started as number `i` runs its next segment. -/
inductive Step where
  | start (a : Action)
  | resume (i : Nat)

/-- Effect of one scheduling step. Resuming an invocation that has finished, or
that was never started, does nothing. -/
def step (s : Sys) : Step → Sys
  | .start a =>
    match a.segments s.view.text with
    | [] => { view := s.view, pending := s.pending ++ [[]] }
    | seg :: rest => { view := run s.view seg, pending := s.pending ++ [rest] }
  | .resume i =>
    match s.pending[i]? with
    | some (seg :: rest) => { view := run s.view seg, pending := s.pending.set i rest }
    | _ => s

/-- The page after a list of scheduling steps. -/
def runSteps (s : Sys) (steps : List Step) : Sys :=
  steps.foldl step s

/-- No invocation is in flight. -/
def Sys.idle (s : Sys) : Bool :=
  s.pending.all List.isEmpty

/-- Every action of the schedule is started while no invocation is in flight:
invocations do not overlap. -/
def noOverlap (s : Sys) : List Step → Bool
  | [] => true
  | .start a :: rest => s.idle && noOverlap (step s (.start a)) rest
  | .resume i :: rest => noOverlap (step s (.resume i)) rest

/-- Whether a call succeeded. -/
def succeeded {α : Type} : Except AxiosError α → Bool
  | .ok _ => true
  | .error _ => false

/-- A successful response carries a body other than `null`. -/
def bodyNonNull : Except AxiosError JVal → Bool
  | .ok body => body.isPresent
  | .error _ => true

/-- Both `POST` outcomes of an analysis carry non-null bodies when successful. -/
def AnalyzeNet.bodiesNonNull (net : AnalyzeNet) : Bool :=
  bodyNonNull net.toxicity && bodyNonNull net.eduScore

/-- Every successful `POST` response of the action carries a non-null body. -/
def Action.bodiesNonNull : Action → Bool
  | .analyze net => net.bodiesNonNull
  | _ => true

/-- Every successful `POST` response of the step carries a non-null body. -/
def Step.bodiesNonNull : Step → Bool
  | .start a => a.bodiesNonNull
  | .resume _ => true

/-- A body of `POST /toxicity` of the shape the service returns. -/
def sampleToxicityBody : JVal :=
  JVal.obj [("text", JVal.str "some text"), ("predicted_class", JVal.str "Neutral"),
    ("score", JVal.num (1 / 10)), ("probabilities", JVal.obj [("Neutral", JVal.num (9 / 10))])]

/-- A body of `POST /edu-score` of the shape the service returns. -/
def sampleEduScoreBody : JVal :=
  JVal.obj [("text", JVal.str "some text"), ("score", JVal.num (5 / 2)),
    ("int_score", JVal.num 3)]

/-- Two clicks on "Analyze Text": the second lands while the first invocation
awaits `POST /edu-score`; the first then completes, and the second sees its
`POST /toxicity` fail. -/
def overlappingSteps : List Step :=
  [ Step.start (Action.analyze ⟨.ok sampleToxicityBody, .ok sampleEduScoreBody, .ok []⟩),
    Step.resume 0,
    Step.start (Action.analyze ⟨.error ⟨"Network Error"⟩, .ok sampleEduScoreBody, .ok []⟩),
    Step.resume 0,
    Step.resume 1,
    Step.resume 0 ]

/-- A session without overlap: the refresh on load, an edit, an analysis whose
second call fails, a clearing of the logs and a fully successful analysis, each
run to completion before the next starts. -/
def sampleSteps : List Step :=
  [ Step.start (Action.refreshLogs (.ok exampleLogs)), Step.resume 0,
    Step.start (Action.edit "some text"),
    Step.start (Action.analyze ⟨.ok sampleToxicityBody, .error ⟨"Network Error"⟩, .ok []⟩),
    Step.resume 2, Step.resume 2,
    Step.start (Action.clearLogs (.ok ())), Step.resume 3,
    Step.start (Action.analyze ⟨.ok sampleToxicityBody, .ok sampleEduScoreBody,
      .error ⟨"Network Error"⟩⟩),
    Step.resume 4, Step.resume 4, Step.resume 4 ]

/-- The invariant of the two results: `eduScoreResult` is present only if
`toxicityResult` is. -/
def ResultsOrdered (v : View) : Prop :=
  v.eduScoreResult.isPresent = true → v.toxicityResult.isPresent = true

/-- The invariant holds now and after each of the remaining segments. -/
def GoodTask : View → List (List Event) → Prop
  | v, [] => ResultsOrdered v
  | v, seg :: rest => ResultsOrdered v ∧ GoodTask (run v seg) rest

/-- The invariant of the page without overlap: at most one invocation (number `j`)
is in flight, and the results stay ordered through its remaining segments. -/
def SysGood (s : Sys) : Prop :=
  ∃ j : Nat, (∀ i t, i ≠ j → s.pending[i]? = some t → t = []) ∧
    GoodTask s.view ((s.pending[j]?).getD [])

/-! ## Auxiliary lemmas -/

theorem scoreOrZero_eq_getD (s : Option ℚ) : scoreOrZero s = s.getD 0 := by
  cases s with
  | none => rfl
  | some q =>
    by_cases hq : q = 0
    · simp [scoreOrZero, hq]
    · simp [scoreOrZero, hq]

theorem series_eq_specSeries (resultType : String) (logs : List LogEntry) :
    (logs.filter (fun log => log.result_type = resultType)).map
      (fun log => scoreOrZero log.score) = specSeries resultType logs := by
  unfold specSeries
  congr 1
  funext log
  exact scoreOrZero_eq_getD log.score

theorem specSeries_length (resultType : String) (logs : List LogEntry) :
    (specSeries resultType logs).length
      = logs.countP (fun log => log.result_type = resultType) := by
  simp [specSeries, List.countP_eq_length_filter]

theorem analyze_both_present_iff (v : View) (text : String) (net : AnalyzeNet)
    (h : net.bodiesNonNull = true) :
    ((run v (handleAnalyzeText text net)).toxicityResult.isPresent = true ∧
      (run v (handleAnalyzeText text net)).eduScoreResult.isPresent = true)
      ↔ (succeeded net.toxicity = true ∧ succeeded net.eduScore = true) := by
  rcases net with ⟨tox, edu, lg⟩
  cases tox with
  | error e => simp [handleAnalyzeText, run, applyEvent, JVal.isPresent, succeeded]
  | ok tb =>
    cases edu with
    | error e => simp [handleAnalyzeText, run, applyEvent, JVal.isPresent, succeeded]
    | ok eb =>
      simp [AnalyzeNet.bodiesNonNull, bodyNonNull] at h
      cases lg <;> simp [handleAnalyzeText, fetchLogs, run, applyEvent, succeeded, h.1, h.2]


theorem handleAnalyzeTextSegments_flatten (text : String) (net : AnalyzeNet) :
    (handleAnalyzeTextSegments text net).flatten = handleAnalyzeText text net := by
  rcases net with ⟨tox, edu, lg⟩
  cases tox with
  | error e => simp [handleAnalyzeTextSegments, handleAnalyzeText]
  | ok tb =>
    cases edu with
    | error e => simp [handleAnalyzeTextSegments, handleAnalyzeText]
    | ok eb =>
      cases lg <;> simp [handleAnalyzeTextSegments, handleAnalyzeText, fetchLogs, fetchLogsResume]

theorem fetchLogsSegments_flatten (logsResponse : Except AxiosError (List LogEntry)) :
    (fetchLogsSegments logsResponse).flatten = fetchLogs logsResponse := by
  cases logsResponse <;> simp [fetchLogsSegments, fetchLogs, fetchLogsResume]

theorem handleClearLogsSegments_flatten (clearResponse : Except AxiosError Unit) :
    (handleClearLogsSegments clearResponse).flatten = handleClearLogs clearResponse := by
  cases clearResponse <;> simp [handleClearLogsSegments, handleClearLogs]

theorem isPresent_null : JVal.null.isPresent = false := rfl

theorem goodTask_ordered {v : View} {t : List (List Event)} (h : GoodTask v t) :
    ResultsOrdered v := by
  cases t with
  | nil => exact h
  | cons seg rest => exact h.1

/-- Every action with non-null bodies keeps the invariant through all its segments. -/
theorem goodTask_segments (v : View) (text : String) (a : Action)
    (ha : a.bodiesNonNull = true) (hv : ResultsOrdered v) :
    GoodTask v (a.segments text) := by
  cases a with
  | edit value =>
    exact ⟨hv, by simpa [ResultsOrdered, handleChange, run, applyEvent] using hv⟩
  | refreshLogs r =>
    cases r <;>
      exact ⟨hv, by simpa [ResultsOrdered, run, applyEvent] using hv,
        by simpa [GoodTask, ResultsOrdered, fetchLogsResume, run, applyEvent] using hv⟩
  | clearLogs r =>
    cases r <;>
      exact ⟨hv, by simpa [ResultsOrdered, run, applyEvent] using hv,
        by simpa [GoodTask, ResultsOrdered, run, applyEvent] using hv⟩
  | analyze net =>
    rcases net with ⟨tox, edu, lg⟩
    cases tox with
    | error e =>
      simp [Action.segments, handleAnalyzeTextSegments, GoodTask, ResultsOrdered, run, applyEvent,
        isPresent_null]
      exact hv
    | ok tb =>
      have hb : tb.isPresent = true ∧ bodyNonNull edu = true := by
        simpa [Action.bodiesNonNull, AnalyzeNet.bodiesNonNull, bodyNonNull] using ha
      cases edu with
      | error e =>
        simp [Action.segments, handleAnalyzeTextSegments, GoodTask, ResultsOrdered, run,
          applyEvent, isPresent_null]
        exact hv
      | ok eb =>
        cases lg <;>
          simp [Action.segments, handleAnalyzeTextSegments, fetchLogsResume, GoodTask,
            ResultsOrdered, run, applyEvent, isPresent_null, hb.1] <;>
          exact hv

theorem sysGood_ordered {s : Sys} (h : SysGood s) : ResultsOrdered s.view := by
  obtain ⟨j, _, hg⟩ := h
  exact goodTask_ordered hg

theorem sysGood_initial : SysGood Sys.initial :=
  ⟨0, by simp [Sys.initial], by simp [Sys.initial, GoodTask, ResultsOrdered, View.initial, JVal.isPresent]⟩

theorem step_resume_none (s : Sys) (i : Nat) (h : s.pending[i]? = none) :
    step s (.resume i) = s := by
  simp [step, h]

theorem step_resume_nil (s : Sys) (i : Nat) (h : s.pending[i]? = some []) :
    step s (.resume i) = s := by
  simp [step, h]

theorem step_resume_cons (s : Sys) (i : Nat) (seg : List Event) (rest : List (List Event))
    (h : s.pending[i]? = some (seg :: rest)) :
    step s (.resume i) = { view := run s.view seg, pending := s.pending.set i rest } := by
  simp [step, h]

theorem sysGood_resume (s : Sys) (i : Nat) (h : SysGood s) : SysGood (step s (.resume i)) := by
  obtain ⟨j, hother, hg⟩ := h
  cases hp : s.pending[i]? with
  | none => rw [step_resume_none s i hp]; exact ⟨j, hother, hg⟩
  | some t =>
    cases t with
    | nil => rw [step_resume_nil s i hp]; exact ⟨j, hother, hg⟩
    | cons seg rest =>
      rw [step_resume_cons s i seg rest hp]
      have hij : i = j := by
        by_contra hne
        have := hother i _ hne hp
        simp at this
      subst hij
      have hlt : i < s.pending.length := by
        obtain ⟨hlt, _⟩ := List.getElem?_eq_some.mp hp
        exact hlt
      refine ⟨i, ?_, ?_⟩
      · intro k t hk hkt
        have hset : (s.pending.set i rest)[k]? = s.pending[k]? := by
          simp [List.getElem?_set, Ne.symm hk]
        have hkt2 : s.pending[k]? = some t := by rw [← hset]; exact hkt
        exact hother k t hk hkt2
      · have hset : (s.pending.set i rest)[i]? = some rest := by
          simp [List.getElem?_set, hlt]
        have hg2 : GoodTask s.view (seg :: rest) := by
          simpa [hp] using hg
        show GoodTask (run s.view seg) (((s.pending.set i rest)[i]?).getD [])
        rw [hset]
        exact hg2.2

theorem step_start_cons (s : Sys) (a : Action) (seg : List Event) (rest : List (List Event))
    (h : a.segments s.view.text = seg :: rest) :
    step s (.start a) = { view := run s.view seg, pending := s.pending ++ [rest] } := by
  simp [step, h]

theorem step_start_nil (s : Sys) (a : Action) (h : a.segments s.view.text = []) :
    step s (.start a) = { view := s.view, pending := s.pending ++ [[]] } := by
  simp [step, h]

theorem sysGood_start (s : Sys) (a : Action) (h : SysGood s) (hidle : s.idle = true)
    (ha : a.bodiesNonNull = true) : SysGood (step s (.start a)) := by
  have hall : ∀ (i : Nat) (t : List (List Event)), s.pending[i]? = some t → t = [] := by
    intro i t hit
    have hmem : t ∈ s.pending := List.getElem?_mem hit
    have := List.all_eq_true.mp hidle t hmem
    simpa using this
  have hgood := goodTask_segments s.view s.view.text a ha (sysGood_ordered h)
  have key : ∀ (rest : List (List Event)) (i : Nat) (t : List (List Event)),
      i ≠ s.pending.length → (s.pending ++ [rest])[i]? = some t → t = [] := by
    intro rest i t hi hit
    rcases Nat.lt_or_gt_of_ne hi with hlt | hgt
    · rw [List.getElem?_append_left hlt] at hit
      exact hall i t hit
    · have hnone : (s.pending ++ [rest])[i]? = none :=
        List.getElem?_eq_none (by simp; omega)
      rw [hnone] at hit
      cases hit
  have hlast : ∀ rest : List (List Event),
      ((s.pending ++ [rest])[s.pending.length]?).getD [] = rest := by
    intro rest
    simp
  cases hseg : a.segments s.view.text with
  | nil =>
    rw [step_start_nil s a hseg]
    refine ⟨s.pending.length, key [], ?_⟩
    show GoodTask s.view (((s.pending ++ [[]])[s.pending.length]?).getD [])
    rw [hlast]
    exact sysGood_ordered h
  | cons seg rest =>
    rw [step_start_cons s a seg rest hseg]
    rw [hseg] at hgood
    refine ⟨s.pending.length, key rest, ?_⟩
    show GoodTask (run s.view seg) (((s.pending ++ [rest])[s.pending.length]?).getD [])
    rw [hlast]
    exact hgood.2

theorem sysGood_runSteps (steps : List Step) :
    ∀ s : Sys, SysGood s → noOverlap s steps = true →
      (∀ st ∈ steps, st.bodiesNonNull = true) → SysGood (runSteps s steps) := by
  induction steps with
  | nil => intro s hs _ _; simpa [runSteps] using hs
  | cons st rest ih =>
    intro s hs hno hb
    have hrest : ∀ x ∈ rest, x.bodiesNonNull = true :=
      fun x hx => hb x (List.mem_cons_of_mem st hx)
    have hst := hb st (List.mem_cons_self st rest)
    cases st with
    | start a =>
      simp only [noOverlap, Bool.and_eq_true] at hno
      have := ih (step s (.start a)) (sysGood_start s a hs hno.1 hst) hno.2 hrest
      simpa [runSteps] using this
    | resume i =>
      simp only [noOverlap] at hno
      have := ih (step s (.resume i)) (sysGood_resume s i hs) hno hrest
      simpa [runSteps] using this

/-- An analysis started on an idle page and resumed to completion leaves the view
that `handleAnalyzeText` run in one piece leaves. -/
theorem runSteps_analyze (s : Sys) (net : AnalyzeNet) :
    (runSteps s [Step.start (Action.analyze net), Step.resume s.pending.length,
      Step.resume s.pending.length, Step.resume s.pending.length]).view
      = run s.view (handleAnalyzeText s.view.text net) := by
  rcases net with ⟨tox, edu, lg⟩
  cases tox with
  | error e =>
    simp [runSteps, step, Action.segments, handleAnalyzeTextSegments, handleAnalyzeText, run]
  | ok tb =>
    cases edu with
    | error e =>
      simp [runSteps, step, Action.segments, handleAnalyzeTextSegments, handleAnalyzeText, run]
    | ok eb =>
      cases lg <;>
        simp [runSteps, step, Action.segments, handleAnalyzeTextSegments, handleAnalyzeText,
          fetchLogs, fetchLogsResume, run]

/-! ## The claims -/

/-- C1: for every prior view, text and outcome of the log refresh, when both `POST`
calls succeed the view afterwards holds exactly the two response bodies, `error`
is `null`, and the calls issued are, in this order, `POST /toxicity`,
`POST /edu-score` and one `GET /logs`. -/
theorem handleAnalyzeText_success (v : View) (text : String) (toxicityData eduScoreData : JVal)
    (logsResponse : Except AxiosError (List LogEntry)) :
    (run v (handleAnalyzeText text ⟨.ok toxicityData, .ok eduScoreData, logsResponse⟩)).toxicityResult
        = toxicityData ∧
    (run v (handleAnalyzeText text ⟨.ok toxicityData, .ok eduScoreData, logsResponse⟩)).eduScoreResult
        = eduScoreData ∧
    (run v (handleAnalyzeText text ⟨.ok toxicityData, .ok eduScoreData, logsResponse⟩)).error
        = none ∧
    requests (handleAnalyzeText text ⟨.ok toxicityData, .ok eduScoreData, logsResponse⟩)
        = [Request.postToxicity text, Request.postEduScore text, Request.getLogs] := by
  cases logsResponse <;>
    simp [handleAnalyzeText, fetchLogs, run, applyEvent, requests]

/-- C2: for every prior view (whatever its `eduScoreResult`), text and remaining
outcomes, when `POST /toxicity` fails the view afterwards has `eduScoreResult`
equal to `null` and `error` equal to the fixed message, and the only call issued
is `POST /toxicity`: `POST /edu-score` is not called. -/
theorem handleAnalyzeText_toxicity_fails (v : View) (text : String) (err : AxiosError)
    (eduScore : Except AxiosError JVal) (logsResponse : Except AxiosError (List LogEntry)) :
    (run v (handleAnalyzeText text ⟨.error err, eduScore, logsResponse⟩)).eduScoreResult
        = JVal.null ∧
    (run v (handleAnalyzeText text ⟨.error err, eduScore, logsResponse⟩)).error
        = some "An error occurred while processing the text." ∧
    requests (handleAnalyzeText text ⟨.error err, eduScore, logsResponse⟩)
        = [Request.postToxicity text] ∧
    Request.postEduScore text ∉
      requests (handleAnalyzeText text ⟨.error err, eduScore, logsResponse⟩) := by
  simp [handleAnalyzeText, run, applyEvent, requests, analyzeErrorMessage]

/-- C3: for every prior view and text, when `POST /toxicity` succeeds and
`POST /edu-score` then fails, the view afterwards has `toxicityResult` equal to
the toxicity response body, `eduScoreResult` equal to `null` and `error` set to
the fixed message. -/
theorem handleAnalyzeText_eduScore_fails (v : View) (text : String) (toxicityData : JVal)
    (err : AxiosError) (logsResponse : Except AxiosError (List LogEntry)) :
    (run v (handleAnalyzeText text ⟨.ok toxicityData, .error err, logsResponse⟩)).toxicityResult
        = toxicityData ∧
    (run v (handleAnalyzeText text ⟨.ok toxicityData, .error err, logsResponse⟩)).eduScoreResult
        = JVal.null ∧
    (run v (handleAnalyzeText text ⟨.ok toxicityData, .error err, logsResponse⟩)).error
        = some "An error occurred while processing the text." := by
  simp [handleAnalyzeText, run, applyEvent, analyzeErrorMessage]

/-- C4: for every log sequence the datasets of `chartData` are, in order, the
"Toxicity Score" series and the "Education Score" series, each equal to the
series of the specification (entries of that type in order, 0 for a null score),
so each has as many points as there are entries of its type; on the example logs
the series are `[0.8, 0]` and `[5]`. -/
theorem chartData_series (logs : List LogEntry) :
    (chartData logs).datasets.map (fun d => (d.label, d.data))
        = [("Toxicity Score", specSeries "Toxicity" logs),
           ("Education Score", specSeries "Education" logs)] ∧
    (chartData logs).series "Toxicity Score" = some (specSeries "Toxicity" logs) ∧
    (chartData logs).series "Education Score" = some (specSeries "Education" logs) ∧
    ((chartData logs).series "Toxicity Score").map List.length
        = some (logs.countP (fun log => log.result_type = "Toxicity")) ∧
    ((chartData logs).series "Education Score").map List.length
        = some (logs.countP (fun log => log.result_type = "Education")) ∧
    (chartData exampleLogs).series "Toxicity Score" = some [4 / 5, 0] ∧
    (chartData exampleLogs).series "Education Score" = some [5] := by
  have ht := series_eq_specSeries "Toxicity" logs
  have he := series_eq_specSeries "Education" logs
  have hs1 : (chartData logs).series "Toxicity Score" = some (specSeries "Toxicity" logs) := by
    simp [chartData, ChartData.series, ht]
  have hs2 : (chartData logs).series "Education Score" = some (specSeries "Education" logs) := by
    simp [chartData, ChartData.series, he]
  refine ⟨?_, hs1, hs2, ?_, ?_, ?_, ?_⟩
  · simp [chartData, ht, he]
  · rw [hs1]; simp [specSeries_length]
  · rw [hs2]; simp [specSeries_length]
  · simp [chartData, exampleLogs, ChartData.series, scoreOrZero]
  · simp [chartData, exampleLogs, ChartData.series, scoreOrZero]

/-- C5: for every log sequence the label axis of `chartData` has one label per
entry, in order: the label at position `i` is "Log " followed by the id of the
entry at position `i`, whatever that entry's type or score; ids 1, 2, 3 give
"Log 1", "Log 2", "Log 3". -/
theorem chartData_labels (logs : List LogEntry) :
    (chartData logs).labels.length = logs.length ∧
    (∀ i : Nat, (chartData logs).labels[i]? = (logs[i]?).map (fun log => "Log " ++ toString log.id)) ∧
    (chartData exampleLogs).labels = ["Log 1", "Log 2", "Log 3"] := by
  refine ⟨by simp [chartData], ?_, by decide⟩
  intro i
  simp [chartData]

/-- C6: for every log sequence the table has one row per entry, in order (the row
at position `i` carries the id, text and type of the entry at position `i`); its
score cell is the string "N/A" exactly when the entry's score is `null`, and is
the score itself otherwise; a score of 0 is shown as the number 0. -/
theorem tableRows_spec (logs : List LogEntry) :
    (tableRows logs).length = logs.length ∧
    (∀ i : Nat, ((tableRows logs)[i]?).map (fun row => (row.id, row.text, row.result_type))
        = (logs[i]?).map (fun log => (log.id, log.text, log.result_type))) ∧
    (∀ (i : Nat) (log : LogEntry), logs[i]? = some log →
      ∃ row, (tableRows logs)[i]? = some row ∧
        (row.score = Cell.str "N/A" ↔ log.score = none) ∧
        (∀ q, log.score = some q → row.score = Cell.num q)) ∧
    (tableRows [⟨7, "t", "Toxicity", some 0⟩]).map (fun row => row.score) = [Cell.num 0] ∧
    (tableRows [⟨8, "t", "Toxicity", none⟩]).map (fun row => row.score) = [Cell.str "N/A"] := by
  refine ⟨by simp [tableRows], ?_, ?_, by simp [tableRows, scoreCell],
    by simp [tableRows, scoreCell]⟩
  · intro i
    simp [tableRows]
    cases logs[i]? <;> simp
  · intro i log hlog
    refine ⟨_, by simp [tableRows, hlog]; rfl, ?_, ?_⟩
    · cases hs : log.score <;> simp [scoreCell]
    · intro q hq
      simp [hq, scoreCell]

/-- C7: for every prior view, a successful `DELETE /clear-logs` leaves `logs` empty
while issuing no other call (no `GET /logs`), and then the chart's labels, both
chart series and the table rows are empty; a failed one leaves `logs` unchanged. -/
theorem handleClearLogs_spec (v : View) :
    (run v (handleClearLogs (.ok ()))).logs = [] ∧
    requests (handleClearLogs (.ok ())) = [Request.deleteClearLogs] ∧
    (chartData (run v (handleClearLogs (.ok ()))).logs).labels = [] ∧
    (chartData (run v (handleClearLogs (.ok ()))).logs).datasets.map (fun d => d.data) = [[], []] ∧
    tableRows (run v (handleClearLogs (.ok ()))).logs = [] ∧
    (∀ err : AxiosError, (run v (handleClearLogs (.error err))).logs = v.logs) := by
  simp [handleClearLogs, run, applyEvent, requests, chartData, tableRows]

/-- C8: for every prior view, a successful `GET /logs` makes `logs` exactly the
response body (same order, nothing of the prior sequence kept); a failed one
leaves both `logs` and `error` unchanged. -/
theorem fetchLogs_spec (v : View) :
    (∀ data : List LogEntry, (run v (fetchLogs (.ok data))).logs = data) ∧
    (∀ err : AxiosError, (run v (fetchLogs (.error err))).logs = v.logs ∧
      (run v (fetchLogs (.error err))).error = v.error) := by
  simp [fetchLogs, run, applyEvent]

/-- C9, as stated, fails: two analyses with non-null bodies, the second started
while the first awaits `POST /edu-score`, both run to completion, leave
`eduScoreResult` present and `toxicityResult` equal to `null`. -/
theorem overlapping_analyses_break_invariant :
    (∀ st ∈ overlappingSteps, st.bodiesNonNull = true) ∧
    (runSteps Sys.initial overlappingSteps).idle = true ∧
    (runSteps Sys.initial overlappingSteps).view.eduScoreResult.isPresent = true ∧
    (runSteps Sys.initial overlappingSteps).view.toxicityResult.isPresent = false := by
  decide

/-- C9, amended: in every state of the page reached from the initial one by a
schedule of edits, analyses, log refreshes and log clearings in which no
invocation is started while another is in flight, and whose successful `POST`
bodies are not `null`, `eduScoreResult` is present only if `toxicityResult` is;
and an analysis started there begins by clearing `error` and both results before
its first call and, run to completion with no step of another invocation in
between, ends with both results present exactly when both of its `POST` calls
succeeded. -/
theorem results_invariant (steps : List Step)
    (hseq : noOverlap Sys.initial steps = true)
    (hbodies : ∀ st ∈ steps, st.bodiesNonNull = true) :
    ((runSteps Sys.initial steps).view.eduScoreResult.isPresent = true →
      (runSteps Sys.initial steps).view.toxicityResult.isPresent = true) ∧
    (∀ net : AnalyzeNet, net.bodiesNonNull = true →
      (handleAnalyzeTextSegments (runSteps Sys.initial steps).view.text net).head?
          = some [Event.setError none, Event.setToxicityResult JVal.null,
              Event.setEduScoreResult JVal.null,
              Event.request (Request.postToxicity (runSteps Sys.initial steps).view.text)] ∧
      (((runSteps (runSteps Sys.initial steps)
            [Step.start (Action.analyze net),
              Step.resume (runSteps Sys.initial steps).pending.length,
              Step.resume (runSteps Sys.initial steps).pending.length,
              Step.resume (runSteps Sys.initial steps).pending.length]).view.toxicityResult.isPresent
          = true ∧
        (runSteps (runSteps Sys.initial steps)
            [Step.start (Action.analyze net),
              Step.resume (runSteps Sys.initial steps).pending.length,
              Step.resume (runSteps Sys.initial steps).pending.length,
              Step.resume (runSteps Sys.initial steps).pending.length]).view.eduScoreResult.isPresent
          = true)
        ↔ (succeeded net.toxicity = true ∧ succeeded net.eduScore = true))) := by
  refine ⟨sysGood_ordered (sysGood_runSteps steps Sys.initial sysGood_initial hseq hbodies), ?_⟩
  intro net hnet
  refine ⟨by simp [handleAnalyzeTextSegments], ?_⟩
  rw [runSteps_analyze]
  exact analyze_both_present_iff _ _ net hnet

/-- The amended C9 at the sample session, which has no overlap. -/
theorem results_invariant_witness :
    noOverlap Sys.initial sampleSteps = true ∧
    (∀ st ∈ sampleSteps, st.bodiesNonNull = true) ∧
    (((runSteps Sys.initial sampleSteps).view.eduScoreResult.isPresent = true →
      (runSteps Sys.initial sampleSteps).view.toxicityResult.isPresent = true) ∧
    (∀ net : AnalyzeNet, net.bodiesNonNull = true →
      (handleAnalyzeTextSegments (runSteps Sys.initial sampleSteps).view.text net).head?
          = some [Event.setError none, Event.setToxicityResult JVal.null,
              Event.setEduScoreResult JVal.null,
              Event.request (Request.postToxicity (runSteps Sys.initial sampleSteps).view.text)] ∧
      (((runSteps (runSteps Sys.initial sampleSteps)
            [Step.start (Action.analyze net),
              Step.resume (runSteps Sys.initial sampleSteps).pending.length,
              Step.resume (runSteps Sys.initial sampleSteps).pending.length,
              Step.resume (runSteps Sys.initial sampleSteps).pending.length]).view.toxicityResult.isPresent
          = true ∧
        (runSteps (runSteps Sys.initial sampleSteps)
            [Step.start (Action.analyze net),
              Step.resume (runSteps Sys.initial sampleSteps).pending.length,
              Step.resume (runSteps Sys.initial sampleSteps).pending.length,
              Step.resume (runSteps Sys.initial sampleSteps).pending.length]).view.eduScoreResult.isPresent
          = true)
        ↔ (succeeded net.toxicity = true ∧ succeeded net.eduScore = true)))) :=
  ⟨by decide, by decide, results_invariant sampleSteps (by decide) (by decide)⟩

/-- C10, as stated, fails: from the initial view a failed `GET /logs` and a failed
`DELETE /clear-logs` both leave `error` at `null`. -/
theorem background_failure_leaves_error_unset :
    (run View.initial (fetchLogs (.error ⟨"Network Error"⟩))).error.isSome = false ∧
    (run View.initial (handleClearLogs (.error ⟨"Network Error"⟩))).error.isSome = false := by
  decide

/-- C10, amended: `error` is set to the fixed message whenever `POST /toxicity` or
`POST /edu-score` fails during `handleAnalyzeText`; a failed `GET /logs` or
`DELETE /clear-logs` leaves `error` as it was, and a failed `GET /logs` at the
end of a successful analysis leaves it `null`; the first effect of every
`handleAnalyzeText` invocation is to set `error` to `null`. -/
theorem error_state_spec (v : View) (text : String) :
    (∀ (err : AxiosError) (eduScore : Except AxiosError JVal)
        (logsResponse : Except AxiosError (List LogEntry)),
      (run v (handleAnalyzeText text ⟨.error err, eduScore, logsResponse⟩)).error
        = some "An error occurred while processing the text.") ∧
    (∀ (toxicityData : JVal) (err : AxiosError) (logsResponse : Except AxiosError (List LogEntry)),
      (run v (handleAnalyzeText text ⟨.ok toxicityData, .error err, logsResponse⟩)).error
        = some "An error occurred while processing the text.") ∧
    (∀ err : AxiosError, (run v (fetchLogs (.error err))).error = v.error) ∧
    (∀ err : AxiosError, (run v (handleClearLogs (.error err))).error = v.error) ∧
    (∀ (toxicityData eduScoreData : JVal) (err : AxiosError),
      (run v (handleAnalyzeText text ⟨.ok toxicityData, .ok eduScoreData, .error err⟩)).error
        = none) ∧
    (∀ net : AnalyzeNet, ∃ rest, handleAnalyzeText text net = Event.setError none :: rest ∧
      (run v [Event.setError none]).error = none) := by
  refine ⟨?_, ?_, ?_, ?_, ?_, ?_⟩
  · intro err eduScore logsResponse
    simp [handleAnalyzeText, run, applyEvent, analyzeErrorMessage]
  · intro toxicityData err logsResponse
    simp [handleAnalyzeText, run, applyEvent, analyzeErrorMessage]
  · intro err
    simp [fetchLogs, run, applyEvent]
  · intro err
    simp [handleClearLogs, run, applyEvent]
  · intro toxicityData eduScoreData err
    simp [handleAnalyzeText, fetchLogs, run, applyEvent]
  · intro net
    exact ⟨_, rfl, rfl⟩

end App
